import Mathlib

set_option linter.unusedVariables false

/-! Shallow embedding of the Claude Code WebSocket server
(`server.js`): the Socket.IO authentication middleware, the
per-address rate limiter, session/project room membership, message
history with replay, the chat_message broadcast path with its deferred
AI response, and disconnect cleanup, all modelled as pure
state-transition functions returning the next server state together
with the list of emitted wire events. -/

/-- Association-list map mirroring a JS `Map`: `set` updates an
existing key in place or appends a new binding at the end, preserving
JS insertion order. -/
def insertL [DecidableEq α] : List (α × β) → α → β → List (α × β)
  | [], k, v => [(k, v)]
  | (k', v') :: rest, k, v =>
    if k = k' then (k, v) :: rest else (k', v') :: insertL rest k v

/-- Lookup in an association-list map (JS `Map.get`). -/
def lookupL [DecidableEq α] : List (α × β) → α → Option β
  | [], _ => none
  | (k', v') :: rest, k => if k = k' then some v' else lookupL rest k

/-- JS `Set.add`: appends the element if it is not already present. -/
def addIfAbsent [DecidableEq α] (x : α) (l : List α) : List α :=
  if x ∈ l then l else l ++ [x]

/-- JS `Array.slice(-n)`: the last `n` elements in their original
order (the whole array when it is shorter than `n`). -/
def lastN (n : Nat) (l : List α) : List α := l.drop (l.length - n)

/-- Decoded JWT payload fields used by the server. -/
structure JwtClaims where
  userId : String
  email : String
deriving DecidableEq

/-- Outcome of the Socket.IO authentication middleware: either the
socket is admitted with a resolved identity, or `next` is called with
an error message and the connection is refused. -/
inductive AuthResult where
  | ok (userId : String) (email : Option String) (isAuthenticated : Bool)
  | reject (msg : String)
deriving DecidableEq

/-- JS `a || b` on possibly-absent strings: the empty string is falsy
and falls through to the right operand. -/
def jsOrStr : Option String → Option String → Option String
  | some s, b => if s = "" then b else some s
  | none, b => b

/-- Initial segment test that returns the remaining suffix when the
pattern matches at the front. -/
def dropPat [DecidableEq α] : List α → List α → Option (List α)
  | [], s => some s
  | _ :: _, [] => none
  | p :: ps, c :: cs => if p = c then dropPat ps cs else none

/-- JS `String.replace` with a string pattern and empty replacement:
removes the first occurrence of `pat`. -/
def removeFirstOcc [DecidableEq α] (pat : List α) : List α → List α
  | [] => []
  | c :: cs =>
    match dropPat pat (c :: cs) with
    | some rem => rem
    | none => c :: removeFirstOcc pat cs

/-- The server's `token.replace('Bearer ', '')`. -/
def stripBearer (s : String) : String :=
  String.mk (removeFirstOcc "Bearer ".toList s.toList)

/-- NODE_ENV resolution `process.env.NODE_ENV || 'development'`: an
unset (or empty, hence falsy) variable yields `development`. -/
def nodeEnvOf : Option String → String
  | some s => if s = "" then "development" else s
  | none => "development"

/-- Socket.IO authentication middleware (`io.use`): the token is
`handshake.auth.token || handshake.headers.authorization`; a falsy
token is admitted as a fresh anonymous identity when NODE_ENV is
`development` and rejected with `Authentication required` otherwise; a
present token has a leading `Bearer ` removed and is verified as a
JWT, any verification failure rejecting the connection with `Invalid
authentication token`. -/
def authenticate (nodeEnv : String) (verify : String → Option JwtClaims)
    (authToken headerAuth : Option String) (freshUuid : String) : AuthResult :=
  match jsOrStr authToken headerAuth with
  | none =>
    if nodeEnv = "development" then .ok ("anonymous_" ++ freshUuid) none false
    else .reject "Authentication required"
  | some s =>
    if s = "" then
      if nodeEnv = "development" then .ok ("anonymous_" ++ freshUuid) none false
      else .reject "Authentication required"
    else
      match verify (stripBearer s) with
      | some claims => .ok claims.userId (some claims.email) true
      | none => .reject "Invalid authentication token"

/-- The `rateLimiter` quota: 100 points per window. -/
def rateLimiterPoints : Nat := 100

/-- The `rateLimiter` window: 60 seconds. -/
def rateLimiterDuration : Nat := 60

/-- Per-key record kept by `RateLimiterMemory`: points consumed in the
current window and the instant the window expires. -/
structure RateRec where
  consumed : Nat
  expiresAt : Nat
deriving DecidableEq

/-- `rateLimiter.consume(key)` at instant `now`: a missing or expired
record starts a fresh window with one point consumed; inside a live
window the consumed count is incremented, and the call is rejected
once the count exceeds the quota. The window resets lazily, on the
first consume observed after expiry. -/
def rlConsume (points duration now : Nat) (key : String)
    (rs : List (String × RateRec)) : Bool × List (String × RateRec) :=
  match lookupL rs key with
  | none => (true, insertL rs key ⟨1, now + duration⟩)
  | some r =>
    if r.expiresAt ≤ now then (true, insertL rs key ⟨1, now + duration⟩)
    else if r.consumed + 1 ≤ points then
      (true, insertL rs key ⟨r.consumed + 1, r.expiresAt⟩)
    else (false, insertL rs key ⟨r.consumed + 1, r.expiresAt⟩)

/-- Iterated `rlConsume` at one instant for one key, keeping only the
final rate-limiter state. -/
def rlConsumeN (points duration now : Nat) (key : String) :
    Nat → List (String × RateRec) → List (String × RateRec)
  | 0, rs => rs
  | n + 1, rs => rlConsumeN points duration now key n
      (rlConsume points duration now key rs).2

/-- A sanitised message/event record as built by the chat handler and
the deferred AI-response callback: a uuid `id`, the validated payload
fields, the origin identity, the timestamp (modelled as a natural
instant instead of the ISO-8601 string, order-faithfully), and the
platform tag; the AI response additionally carries `role`. -/
structure Message where
  id : String
  content : String
  sessionId : String
  projectId : Option String
  userId : String
  timestamp : Nat
  role : Option String
  platform : String
deriving DecidableEq

/-- Client payload of a `chat_message` event, with the fields the
`messageSchemas.chat_message` Joi schema inspects (the free-form
`metadata` object, which the schema never rejects, is omitted). -/
structure ChatInput where
  content : String
  sessionId : String
  projectId : Option String
deriving DecidableEq

/-- Hexadecimal digit test. -/
def isHexDigit (c : Char) : Bool :=
  c.isDigit || ('a' ≤ c && c ≤ 'f') || ('A' ≤ c && c ≤ 'F')

/-- Joi `string().uuid()` in its plain 8-4-4-4-12 hyphenated form:
36 characters, hyphens at positions 8, 13, 18 and 23, hexadecimal
digits everywhere else. -/
def isUuid (s : String) : Bool :=
  let cs := s.toList
  cs.length = 36 &&
  (List.range 36).all (fun i =>
    let c := cs.getD i ' '
    if i = 8 || i = 13 || i = 18 || i = 23 then c = '-' else isHexDigit c)

/-- `messageSchemas.chat_message.validate`: content is a required
string of 1 to 10000 characters, sessionId a required uuid string,
projectId an optional string. -/
def validateChat (d : ChatInput) : Bool :=
  1 ≤ d.content.length && d.content.length ≤ 10000 && isUuid d.sessionId

/-- A pending `setTimeout` AI-response callback captured by the chat
handler: the session it replies into and the prompt content. -/
structure PendingAi where
  sessionId : String
  content : String
deriving DecidableEq

/-- A connected socket: its socket id and the identity resolved by the
authentication middleware. -/
structure Conn where
  sockId : Nat
  userId : String
deriving DecidableEq

/-- In-memory server state: the Socket.IO adapter's room-to-sockets
map, the `activeSessions` and `activeProjects` registries (room id to
member identities), the `messageHistory` map (session key to ordered
event log), the queue of pending AI-response timers, and the supply
counter for fresh uuids. -/
structure ServerState where
  socketRooms : List (String × List Nat)
  activeSessions : List (String × List String)
  activeProjects : List (String × List String)
  messageHistory : List (String × List Message)
  pending : List PendingAi
  uuidCtr : Nat
deriving DecidableEq

/-- A wire event delivered to a socket. -/
inductive WireEvent where
  | chatMessage (m : Message)
  | sessionHistory (sessionId : String) (messages : List Message)
  | sessionJoined (sessionId : String)
  | projectJoined (projectId : String)
  | errorEv (message : String)
deriving DecidableEq

/-- A delivery: target socket id paired with the event it receives. -/
abbrev Emission := Nat × WireEvent

/-- Sockets currently joined to a Socket.IO room. -/
def roomMembers (st : ServerState) (key : String) : List Nat :=
  (lookupL st.socketRooms key).getD []

/-- `socket.join(key)`: creates the adapter room on first use and adds
the socket to it (a no-op when already a member). -/
def adjoinRoom (m : List (String × List Nat)) (key : String) (s : Nat) :
    List (String × List Nat) :=
  match lookupL m key with
  | none => insertL m key [s]
  | some l => insertL m key (addIfAbsent s l)

/-- The registry pattern `if (!reg.has(id)) reg.set(id, new Set());
reg.get(id).add(u)`. -/
def ensureAdd (m : List (String × List String)) (k u : String) :
    List (String × List String) :=
  match lookupL m k with
  | none => insertL m k [u]
  | some l => insertL m k (addIfAbsent u l)

/-- The history pattern `if (!hist.has(key)) hist.set(key, []);
hist.get(key).push(msg)`. -/
def ensureAppendMsg (m : List (String × List Message)) (key : String)
    (msg : Message) : List (String × List Message) :=
  match lookupL m key with
  | none => insertL m key [msg]
  | some l => insertL m key (l ++ [msg])

/-- The AI-callback pattern `hist.get(key).push(msg)`, which assumes
the key is present (it always is when a timer for it is pending); an
absent key is left unchanged where the source would throw. -/
def appendExisting (m : List (String × List Message)) (key : String)
    (msg : Message) : List (String × List Message) :=
  match lookupL m key with
  | none => m
  | some l => insertL m key (l ++ [msg])

/-- The message record the chat handler builds from a validated
payload: `{ id: uuidv4(), ...value, userId, timestamp, platform }`. -/
def mkChatMessage (id : String) (c : Conn) (d : ChatInput) (now : Nat) : Message :=
  { id := id, content := d.content, sessionId := d.sessionId,
    projectId := d.projectId, userId := c.userId, timestamp := now,
    role := none, platform := "websocket" }

/-- The simulated AI reply text, quoting the first 50 characters of
the prompt. -/
def aiContent (content : String) : String :=
  "AI Response to: \"" ++ content.take 50 ++ "...\""

/-- The AI-response record built inside the `setTimeout` callback. -/
def mkAiMessage (id sessionId content : String) (now : Nat) : Message :=
  { id := id, content := aiContent content, sessionId := sessionId,
    projectId := none, userId := "claude-ai", timestamp := now,
    role := some "assistant", platform := "claude-api" }

/-- The `join_session` handler: a falsy session id is answered with an
error to the sender only; otherwise the socket joins the adapter room,
the identity is added to `activeSessions`, and the sender alone
receives the last 50 history entries followed by the join ack. -/
def stepJoinSession (c : Conn) (sid : String) (st : ServerState) :
    ServerState × List Emission :=
  if sid = "" then
    (st, [(c.sockId, WireEvent.errorEv "Session ID is required")])
  else
    let key := "session:" ++ sid
    let hist := (lookupL st.messageHistory key).getD []
    ({ st with
        socketRooms := adjoinRoom st.socketRooms key c.sockId,
        activeSessions := ensureAdd st.activeSessions sid c.userId },
     [(c.sockId, WireEvent.sessionHistory sid (lastN 50 hist)),
      (c.sockId, WireEvent.sessionJoined sid)])

/-- The `join_project` handler: like `join_session` but on the project
registry, with no history replay. -/
def stepJoinProject (c : Conn) (pid : String) (st : ServerState) :
    ServerState × List Emission :=
  if pid = "" then
    (st, [(c.sockId, WireEvent.errorEv "Project ID is required")])
  else
    ({ st with
        socketRooms := adjoinRoom st.socketRooms ("project:" ++ pid) c.sockId,
        activeProjects := ensureAdd st.activeProjects pid c.userId },
     [(c.sockId, WireEvent.projectJoined pid)])

/-- The `chat_message` handler: a payload failing the schema is
answered with a validation error to the sender only; a valid payload
is stamped into a message record, appended to the session history,
broadcast via `socket.to(sessionKey)` to every socket in the session
room except the sender, and a deferred AI-response callback is
scheduled. -/
def stepChat (uuids : Nat → String) (now : Nat) (c : Conn) (d : ChatInput)
    (st : ServerState) : ServerState × List Emission :=
  if validateChat d then
    let m := mkChatMessage (uuids st.uuidCtr) c d now
    let key := "session:" ++ d.sessionId
    ({ st with
        messageHistory := ensureAppendMsg st.messageHistory key m,
        pending := st.pending ++ [⟨d.sessionId, d.content⟩],
        uuidCtr := st.uuidCtr + 1 },
     ((roomMembers st key).filter (fun s => s ≠ c.sockId)).map
       (fun s => (s, WireEvent.chatMessage m)))
  else
    (st, [(c.sockId, WireEvent.errorEv "Invalid message format")])

/-- Firing of the oldest pending `setTimeout` AI-response callback:
the AI message is built, pushed onto the session history, and
delivered via `io.to(sessionKey)` to every socket in the session room,
the original sender included. -/
def stepTimer (uuids : Nat → String) (now : Nat) (st : ServerState) :
    ServerState × List Emission :=
  match st.pending with
  | [] => (st, [])
  | p :: rest =>
    let ai := mkAiMessage (uuids st.uuidCtr) p.sessionId p.content now
    let key := "session:" ++ p.sessionId
    ({ st with
        messageHistory := appendExisting st.messageHistory key ai,
        pending := rest,
        uuidCtr := st.uuidCtr + 1 },
     (roomMembers st key).map (fun s => (s, WireEvent.chatMessage ai)))

/-- Connection admission side effect `socket.join('user:' + userId)`. -/
def stepConnect (c : Conn) (st : ServerState) : ServerState × List Emission :=
  ({ st with socketRooms := adjoinRoom st.socketRooms ("user:" ++ c.userId) c.sockId },
   [])

/-- The disconnect cleanup loop over a registry: the disconnecting
identity is deleted from every member set containing it, and a set
emptied by that deletion is removed from the registry. -/
def cleanupUser (u : String) : List (String × List String) → List (String × List String)
  | [] => []
  | (k, users) :: rest =>
    if u ∈ users then
      if users.erase u = [] then cleanupUser u rest
      else (k, users.erase u) :: cleanupUser u rest
    else (k, users) :: cleanupUser u rest

/-- Socket.IO adapter behaviour on disconnect: the socket leaves every
room, and a room left empty is dropped. -/
def removeSocket (s : Nat) : List (String × List Nat) → List (String × List Nat)
  | [] => []
  | (k, socks) :: rest =>
    if socks.filter (fun x => x ≠ s) = [] then removeSocket s rest
    else (k, socks.filter (fun x => x ≠ s)) :: removeSocket s rest

/-- The `disconnect` handler plus adapter cleanup: the socket leaves
all adapter rooms, and its identity is cleaned out of both registries
(keyed by identity, irrespective of any sibling connections of the
same identity). Message history is untouched. -/
def stepDisconnect (c : Conn) (st : ServerState) : ServerState × List Emission :=
  ({ st with
      socketRooms := removeSocket c.sockId st.socketRooms,
      activeSessions := cleanupUser c.userId st.activeSessions,
      activeProjects := cleanupUser c.userId st.activeProjects },
   [])

/-- An input processed by the single-threaded event loop. -/
inductive ServerInput where
  | connect (c : Conn)
  | joinSession (c : Conn) (sessionId : String)
  | joinProject (c : Conn) (projectId : String)
  | chatMessage (c : Conn) (d : ChatInput)
  | timerFire
  | disconnect (c : Conn)
deriving DecidableEq

/-- One step of the event loop at instant `now`, drawing fresh uuids
from the supply `uuids`. -/
def step (uuids : Nat → String) (now : Nat) (st : ServerState) :
    ServerInput → ServerState × List Emission
  | .connect c => stepConnect c st
  | .joinSession c sid => stepJoinSession c sid st
  | .joinProject c pid => stepJoinProject c pid st
  | .chatMessage c d => stepChat uuids now c d st
  | .timerFire => stepTimer uuids now st
  | .disconnect c => stepDisconnect c st

/-- A run of the event loop over timestamped inputs, concatenating the
emissions of every step in order. -/
def run (uuids : Nat → String) :
    ServerState → List (Nat × ServerInput) → ServerState × List Emission
  | st, [] => (st, [])
  | st, (now, inp) :: rest =>
    let out := step uuids now st inp
    let tail := run uuids out.1 rest
    (tail.1, out.2 ++ tail.2)

/-- The empty initial server state. -/
def state0 : ServerState :=
  { socketRooms := [], activeSessions := [], activeProjects := [],
    messageHistory := [], pending := [], uuidCtr := 0 }

theorem lookupL_insertL_self [DecidableEq α] (m : List (α × β)) (k : α) (v : β) :
    lookupL (insertL m k v) k = some v := by
  induction m with
  | nil => simp [insertL, lookupL]
  | cons p rest ih =>
    obtain ⟨k', v'⟩ := p
    by_cases hk : k = k' <;> simp [insertL, lookupL, hk, ih]

theorem insertL_insertL [DecidableEq α] (m : List (α × β)) (k : α) (v w : β) :
    insertL (insertL m k v) k w = insertL m k w := by
  induction m with
  | nil => simp [insertL]
  | cons p rest ih =>
    obtain ⟨k', v'⟩ := p
    by_cases hk : k = k' <;> simp [insertL, hk, ih]

theorem mem_addIfAbsent_self [DecidableEq α] (x : α) (l : List α) :
    x ∈ addIfAbsent x l := by
  by_cases h : x ∈ l <;> simp [addIfAbsent, h]

theorem addIfAbsent_of_mem [DecidableEq α] {x : α} {l : List α} (h : x ∈ l) :
    addIfAbsent x l = l := by
  simp [addIfAbsent, h]

theorem adjoinRoom_idem (m : List (String × List Nat)) (k : String) (s : Nat) :
    adjoinRoom (adjoinRoom m k s) k s = adjoinRoom m k s := by
  unfold adjoinRoom
  cases h : lookupL m k with
  | none =>
    rw [lookupL_insertL_self]
    dsimp only
    rw [addIfAbsent_of_mem (show s ∈ [s] by simp), insertL_insertL]
  | some l =>
    rw [lookupL_insertL_self]
    dsimp only
    rw [addIfAbsent_of_mem (mem_addIfAbsent_self s l), insertL_insertL]

theorem ensureAdd_idem (m : List (String × List String)) (k u : String) :
    ensureAdd (ensureAdd m k u) k u = ensureAdd m k u := by
  unfold ensureAdd
  cases h : lookupL m k with
  | none =>
    rw [lookupL_insertL_self]
    dsimp only
    rw [addIfAbsent_of_mem (show u ∈ [u] by simp), insertL_insertL]
  | some l =>
    rw [lookupL_insertL_self]
    dsimp only
    rw [addIfAbsent_of_mem (mem_addIfAbsent_self u l), insertL_insertL]

theorem lookupL_ensureAppendMsg (m : List (String × List Message)) (key : String)
    (msg : Message) :
    lookupL (ensureAppendMsg m key msg) key =
      some ((lookupL m key).getD [] ++ [msg]) := by
  unfold ensureAppendMsg
  cases h : lookupL m key with
  | none => simp [lookupL_insertL_self]
  | some l => simp [lookupL_insertL_self]

theorem lookupL_eq_none [DecidableEq α] (m : List (α × β)) (k : α)
    (h : k ∉ m.map Prod.fst) : lookupL m k = none := by
  induction m with
  | nil => rfl
  | cons p rest ih =>
    simp only [List.map_cons, List.mem_cons, not_or] at h
    simp [lookupL, h.1, ih h.2]

theorem lookupL_none_cleanupUser (u : String) (m : List (String × List String))
    (k : String) (h : lookupL m k = none) :
    lookupL (cleanupUser u m) k = none := by
  induction m with
  | nil => exact h
  | cons p rest ih =>
    obtain ⟨k0, l0⟩ := p
    by_cases hk : k = k0
    · simp [lookupL, hk] at h
    · simp only [lookupL, if_neg hk] at h
      by_cases hu : u ∈ l0 <;> by_cases he : l0.erase u = [] <;>
        simp [cleanupUser, hu, he, lookupL, hk, ih h]

theorem lookupL_cleanupUser (u : String) (m : List (String × List String))
    (k : String) (hnd : (m.map Prod.fst).Nodup) :
    lookupL (cleanupUser u m) k =
      (lookupL m k).bind (fun l =>
        if u ∈ l then (if l.erase u = [] then none else some (l.erase u))
        else some l) := by
  induction m with
  | nil => rfl
  | cons p rest ih =>
    obtain ⟨k0, l0⟩ := p
    simp only [List.map_cons, List.nodup_cons] at hnd
    by_cases hk : k = k0
    · subst hk
      have hrest : lookupL rest k = none := lookupL_eq_none rest k hnd.1
      show lookupL (cleanupUser u ((k, l0) :: rest)) k = _
      rw [show lookupL ((k, l0) :: rest) k = some l0 by simp [lookupL],
        Option.some_bind]
      by_cases hu : u ∈ l0
      · by_cases he : l0.erase u = []
        · rw [if_pos hu, if_pos he,
            show cleanupUser u ((k, l0) :: rest) = cleanupUser u rest by
              rw [cleanupUser, if_pos hu, if_pos he]]
          exact lookupL_none_cleanupUser u rest k hrest
        · rw [if_pos hu, if_neg he,
            show cleanupUser u ((k, l0) :: rest)
                = (k, l0.erase u) :: cleanupUser u rest by
              rw [cleanupUser, if_pos hu, if_neg he]]
          simp [lookupL]
      · rw [if_neg hu,
          show cleanupUser u ((k, l0) :: rest) = (k, l0) :: cleanupUser u rest by
            rw [cleanupUser, if_neg hu]]
        simp [lookupL]
    · rw [show lookupL ((k0, l0) :: rest) k = lookupL rest k by
        simp [lookupL, hk]]
      by_cases hu : u ∈ l0
      · by_cases he : l0.erase u = []
        · rw [show cleanupUser u ((k0, l0) :: rest) = cleanupUser u rest by
            rw [cleanupUser, if_pos hu, if_pos he]]
          exact ih hnd.2
        · rw [show cleanupUser u ((k0, l0) :: rest)
              = (k0, l0.erase u) :: cleanupUser u rest by
            rw [cleanupUser, if_pos hu, if_neg he]]
          rw [show lookupL ((k0, l0.erase u) :: cleanupUser u rest) k
              = lookupL (cleanupUser u rest) k by simp [lookupL, hk]]
          exact ih hnd.2
      · rw [show cleanupUser u ((k0, l0) :: rest) = (k0, l0) :: cleanupUser u rest by
          rw [cleanupUser, if_neg hu]]
        rw [show lookupL ((k0, l0) :: cleanupUser u rest) k
            = lookupL (cleanupUser u rest) k by simp [lookupL, hk]]
        exact ih hnd.2

theorem lookupL_mem [DecidableEq α] {m : List (α × β)} {k : α} {v : β}
    (h : lookupL m k = some v) : (k, v) ∈ m := by
  induction m with
  | nil => simp [lookupL] at h
  | cons p rest ih =>
    obtain ⟨k', v'⟩ := p
    by_cases hk : k = k'
    · simp [lookupL, hk] at h
      simp [hk, h]
    · simp only [lookupL, if_neg hk] at h
      exact List.mem_cons_of_mem _ (ih h)

theorem lastN_length (n : Nat) (l : List α) :
    (lastN n l).length = min n l.length := by
  simp only [lastN, List.length_drop]
  omega

theorem take_append_lastN (n : Nat) (l : List α) :
    l.take (l.length - n) ++ lastN n l = l :=
  List.take_append_drop _ l

theorem stepJoinSession_emissions (c : Conn) (sid : String) (st : ServerState)
    (h : sid ≠ "") :
    (stepJoinSession c sid st).2 =
      [(c.sockId, WireEvent.sessionHistory sid
          (lastN 50 ((lookupL st.messageHistory ("session:" ++ sid)).getD []))),
       (c.sockId, WireEvent.sessionJoined sid)] := by
  simp [stepJoinSession, h]

/-- A deterministic uuid supply for concrete runs. -/
def uuidsN : Nat → String := fun n => "u" ++ toString n

/-- A concrete session id accepted by the chat schema's uuid check. -/
def sidC : String := "00000000-0000-4000-8000-000000000000"

/-- Concrete connections for the scenario runs. -/
def connA : Conn := ⟨0, "alice"⟩

def connB : Conn := ⟨1, "bob"⟩

def connC : Conn := ⟨2, "carol"⟩

/-- The payload of the spec's concrete chat scenario. -/
def chat1 : ChatInput := ⟨"hi", sidC, none⟩

/-- The chat message record produced in the scenario runs. -/
def m1C : Message := mkChatMessage "u0" connA chat1 5

/-- The AI response record produced in the scenario runs. -/
def aiC : Message := mkAiMessage "u1" sidC "hi" 6

/-- The spec's concrete scenario: A and B join the session, A sends a
chat message, the AI-response timer fires, then C joins. -/
def scenario1 : List (Nat × ServerInput) :=
  [(0, .connect connA), (0, .connect connB), (0, .connect connC),
   (1, .joinSession connA sidC), (2, .joinSession connB sidC),
   (5, .chatMessage connA chat1),
   (6, .timerFire),
   (7, .joinSession connC sidC)]

/-- C1 counterexample: in the spec's concrete scenario the sender A is
a member of the session room when it sends the chat message, yet A
never receives that message (the handler broadcasts with
`socket.to(sessionKey)`, which excludes the sender), while B does
receive it — refuting the claim that every member connection including
A receives the message. -/
theorem c1_sender_not_delivered_cex :
    connA.sockId ∈ roomMembers (run uuidsN state0 (scenario1.take 5)).1
      ("session:" ++ sidC) ∧
    (connA.sockId, WireEvent.chatMessage m1C) ∉ (run uuidsN state0 scenario1).2 ∧
    (connB.sockId, WireEvent.chatMessage m1C) ∈ (run uuidsN state0 scenario1).2 := by
  set_option maxRecDepth 4000 in decide

/-- C1 amended: in the concrete scenario, every member connection
other than the sender receives the chat message, then every member
connection including the sender receives the AI-response event, each
member observing the two events in the router's acceptance order, and
a connection C joining afterward receives a replay containing exactly
those two events in that order. -/
theorem c1_broadcast_order_amended :
    (run uuidsN state0 scenario1).2 =
      [(connA.sockId, WireEvent.sessionHistory sidC []),
       (connA.sockId, WireEvent.sessionJoined sidC),
       (connB.sockId, WireEvent.sessionHistory sidC []),
       (connB.sockId, WireEvent.sessionJoined sidC),
       (connB.sockId, WireEvent.chatMessage m1C),
       (connA.sockId, WireEvent.chatMessage aiC),
       (connB.sockId, WireEvent.chatMessage aiC),
       (connC.sockId, WireEvent.sessionHistory sidC [m1C, aiC]),
       (connC.sockId, WireEvent.sessionJoined sidC)] ∧
    lookupL (run uuidsN state0 scenario1).1.messageHistory ("session:" ++ sidC) =
      some [m1C, aiC] := by
  set_option maxRecDepth 4000 in decide

/-- C2: with NODE_ENV unset the configuration defaults to
`development`, in which the authentication middleware accepts a
connection presenting no credential and maps it to a freshly generated
anonymous identity — so the permissive fallback is the default, not an
explicit opt-in, contradicting the claim. -/
theorem c2_permissive_default_code_bug :
    nodeEnvOf none = "development" ∧
    authenticate (nodeEnvOf none) (fun _ : String => (none : Option JwtClaims))
      none none "1234" = .ok ("anonymous_" ++ "1234") none false := by
  exact ⟨rfl, rfl⟩

theorem rlConsume_single (points duration now : Nat) (key : String) (r : RateRec) :
    rlConsume points duration now key [(key, r)] =
      if r.expiresAt ≤ now then (true, [(key, ⟨1, now + duration⟩)])
      else if r.consumed + 1 ≤ points then
        (true, [(key, ⟨r.consumed + 1, r.expiresAt⟩)])
      else (false, [(key, ⟨r.consumed + 1, r.expiresAt⟩)]) := by
  unfold rlConsume
  rw [show lookupL [(key, r)] key = some r by simp [lookupL]]
  dsimp only
  by_cases h1 : r.expiresAt ≤ now
  · simp [h1, insertL]
  · by_cases h2 : r.consumed + 1 ≤ points <;> simp [h1, h2, insertL]

theorem rlConsumeN_loop (points duration t : Nat) (key : String) (hd : 0 < duration) :
    ∀ n k, 1 ≤ k → k + n ≤ points →
      rlConsumeN points duration t key n [(key, ⟨k, t + duration⟩)] =
        [(key, ⟨k + n, t + duration⟩)]
  | 0, k, hk, hle => by simp [rlConsumeN]
  | n + 1, k, hk, hle => by
    rw [rlConsumeN, rlConsume_single]
    dsimp only
    rw [if_neg (by omega), if_pos (by omega)]
    rw [rlConsumeN_loop points duration t key hd n (k + 1) (by omega) (by omega),
      show k + 1 + n = k + (n + 1) from by omega]

theorem rlConsumeN_from_empty (points duration t : Nat) (key : String) (n : Nat)
    (h1 : 1 ≤ n) (h2 : n ≤ points) (hd : 0 < duration) :
    rlConsumeN points duration t key n [] = [(key, ⟨n, t + duration⟩)] := by
  cases n with
  | zero => omega
  | succ n' =>
    rw [rlConsumeN]
    rw [show (rlConsume points duration t key []).2 = [(key, ⟨1, t + duration⟩)] by
      simp [rlConsume, lookupL, insertL]]
    rw [rlConsumeN_loop points duration t key hd n' 1 (by omega) (by omega),
      show 1 + n' = n' + 1 from by omega]

/-- C3 amended: the rate limiter guards connection admission, not
individual chat messages: after 100 admissions of one source address
at instant `t` the 100th was still admitted, the 101st admission
attempt at any instant inside the 60-second window is rejected, and an
attempt at `t + 60`, once the window has elapsed, is admitted again. -/
theorem c3_connection_rate_limit_amended (t d : Nat) (key : String)
    (hd : d < rateLimiterDuration) :
    (rlConsume rateLimiterPoints rateLimiterDuration t key
      (rlConsumeN rateLimiterPoints rateLimiterDuration t key 99 [])).1 = true ∧
    (rlConsume rateLimiterPoints rateLimiterDuration (t + d) key
      (rlConsumeN rateLimiterPoints rateLimiterDuration t key 100 [])).1 = false ∧
    (rlConsume rateLimiterPoints rateLimiterDuration (t + rateLimiterDuration) key
      (rlConsumeN rateLimiterPoints rateLimiterDuration t key 100 [])).1 = true := by
  have hd' : d < 60 := hd
  have h99 := rlConsumeN_from_empty 100 60 t key 99 (by omega) (by omega) (by omega)
  have h100 := rlConsumeN_from_empty 100 60 t key 100 (by omega) (by omega) (by omega)
  refine ⟨?_, ?_, ?_⟩
  · show (rlConsume 100 60 t key (rlConsumeN 100 60 t key 99 [])).1 = true
    rw [h99, rlConsume_single]
    dsimp only
    rw [if_neg (by omega), if_pos (by omega)]
  · show (rlConsume 100 60 (t + d) key (rlConsumeN 100 60 t key 100 [])).1 = false
    rw [h100, rlConsume_single]
    dsimp only
    rw [if_neg (by omega), if_neg (by omega)]
  · show (rlConsume 100 60 (t + 60) key (rlConsumeN 100 60 t key 100 [])).1 = true
    rw [h100, rlConsume_single]
    dsimp only
    rw [if_pos (by omega)]

/-- C3 witness: the amended rate-limit theorem instantiated at the
window starting at instant 0 for one source address. -/
theorem c3_connection_rate_limit_witness :
    (rlConsume rateLimiterPoints rateLimiterDuration 0 "10.0.0.1"
      (rlConsumeN rateLimiterPoints rateLimiterDuration 0 "10.0.0.1" 100 [])).1 = false :=
  (c3_connection_rate_limit_amended 0 0 "10.0.0.1" (by decide)).2.1

/-- A run in which one address's connection sends 101 chat messages
inside one window: two members join the session and A then sends 101
valid chat messages. -/
def scenario3 : List (Nat × ServerInput) :=
  [(0, .connect connA), (0, .connect connB),
   (0, .joinSession connA sidC), (0, .joinSession connB sidC)]
  ++ (List.replicate 101 (0, .chatMessage connA ⟨"hi", sidC, none⟩))

/-- The 101st chat message record of `scenario3`. -/
def m101C : Message := mkChatMessage "u100" connA ⟨"hi", sidC, none⟩ 0

/-- C3 counterexample: the chat_message handler never consults the
rate limiter, so the 101st chat message sent from one address within
the window is still broadcast to the other member, no error is
returned to the sender, and all 101 messages are appended to the
session history — refuting the claim that the 101st chat message is
rejected and not broadcast. -/
theorem c3_chat_not_rate_limited_cex :
    (connB.sockId, WireEvent.chatMessage m101C) ∈ (run uuidsN state0 scenario3).2 ∧
    (connA.sockId, WireEvent.errorEv "Invalid message format")
      ∉ (run uuidsN state0 scenario3).2 ∧
    ((lookupL (run uuidsN state0 scenario3).1.messageHistory
      ("session:" ++ sidC)).getD []).length = 101 := by
  set_option maxRecDepth 40000 in decide

/-- The run behind the room-retirement scenario: A joins the session,
sends a chat message, the AI response fires, and A — the last member —
disconnects; afterwards C joins the same session id. -/
def scenario4 : List (Nat × ServerInput) :=
  [(0, .connect connA), (1, .joinSession connA sidC),
   (5, .chatMessage connA chat1), (6, .timerFire),
   (8, .disconnect connA), (9, .joinSession connC sidC)]

/-- C4 counterexample: after the last member of the session room
disconnects the membership entry is gone from the registry, yet the
history buffer survives, so the next joiner's replay contains the two
events accepted before the room became empty — refuting the claim that
the replay is empty. -/
theorem c4_replay_after_retirement_cex :
    lookupL (run uuidsN state0 (scenario4.take 5)).1.activeSessions sidC = none ∧
    (connC.sockId, WireEvent.sessionHistory sidC [m1C, aiC])
      ∈ (run uuidsN state0 scenario4).2 ∧
    ([m1C, aiC] : List Message) ≠ [] := by
  set_option maxRecDepth 4000 in decide

/-- C4 amended: when the last member of a session room disconnects,
the room's registry entry is removed (so a later join starts from a
fresh empty member set), but the message history is left untouched and
is replayed, last 50 entries oldest first, to the next connection that
joins the same session id. -/
theorem c4_room_retirement_amended (st : ServerState) (c c' : Conn) (sid : String)
    (h1 : lookupL st.activeSessions sid = some [c.userId])
    (hnd : (st.activeSessions.map Prod.fst).Nodup)
    (hsid : sid ≠ "") :
    (stepDisconnect c st).1.messageHistory = st.messageHistory ∧
    lookupL (stepDisconnect c st).1.activeSessions sid = none ∧
    (stepJoinSession c' sid (stepDisconnect c st).1).2 =
      [(c'.sockId, WireEvent.sessionHistory sid
          (lastN 50 ((lookupL st.messageHistory ("session:" ++ sid)).getD []))),
       (c'.sockId, WireEvent.sessionJoined sid)] := by
  refine ⟨rfl, ?_, ?_⟩
  · show lookupL (cleanupUser c.userId st.activeSessions) sid = none
    rw [lookupL_cleanupUser _ _ _ hnd, h1]
    simp
  · exact stepJoinSession_emissions c' sid _ hsid

/-- C4 witness: the amended room-retirement theorem instantiated at
the state of `scenario4` just before A disconnects. -/
theorem c4_room_retirement_witness :
    lookupL (stepDisconnect connA (run uuidsN state0 (scenario4.take 4)).1).1.activeSessions
      sidC = none :=
  (c4_room_retirement_amended (run uuidsN state0 (scenario4.take 4)).1 connA connC sidC
    (by decide) (by decide) (by decide)).2.1

/-- A uuid supply whose second value is lexicographically below its
first, as random uuidv4 values may well be. -/
def uuidsDesc : Nat → String := fun n =>
  if n = 0 then "f0000000-0000-4000-8000-000000000000"
  else "a0000000-0000-4000-8000-000000000000"

/-- A run in which A sends two chat messages in the same instant. -/
def scenario5 : List (Nat × ServerInput) :=
  [(0, .connect connA), (1, .joinSession connA sidC),
   (7, .chatMessage connA ⟨"one", sidC, none⟩),
   (7, .chatMessage connA ⟨"two", sidC, none⟩)]

/-- Placeholder message used as a list-lookup default. -/
def mNull : Message := ⟨"", "", "", none, "", 0, none, ""⟩

/-- C5 counterexample: two events accepted into the same room carry
the only server-assigned per-event values `id` (an opaque uuid, here
drawn from a supply whose second value is lexicographically below the
first) and `timestamp` (equal for events accepted in the same instant)
— neither is strictly increasing in acceptance order, so no
server-assigned sequence number as claimed exists on the event
records. -/
theorem c5_no_sequence_number_cex :
    ((lookupL (run uuidsDesc state0 scenario5).1.messageHistory
      ("session:" ++ sidC)).getD []).length = 2 ∧
    (((lookupL (run uuidsDesc state0 scenario5).1.messageHistory
      ("session:" ++ sidC)).getD []).getD 0 mNull).timestamp =
    (((lookupL (run uuidsDesc state0 scenario5).1.messageHistory
      ("session:" ++ sidC)).getD []).getD 1 mNull).timestamp ∧
    ¬ (((lookupL (run uuidsDesc state0 scenario5).1.messageHistory
      ("session:" ++ sidC)).getD []).getD 0 mNull).id.toList <
      (((lookupL (run uuidsDesc state0 scenario5).1.messageHistory
      ("session:" ++ sidC)).getD []).getD 1 mNull).id.toList := by
  set_option maxRecDepth 4000 in decide

/-- C5 amended: every accepted chat event is appended at the end of
its room's history, so an event's history position is strictly greater
than that of every previously accepted event of the room and is never
reused — acceptance order is recorded by position, while the event
record itself carries only the uuid `id` and the `timestamp`, neither
a strictly increasing sequence number. -/
theorem c5_append_order_amended (uuids : Nat → String) (now : Nat) (c : Conn)
    (d : ChatInput) (st : ServerState) (h : validateChat d = true) :
    lookupL (stepChat uuids now c d st).1.messageHistory ("session:" ++ d.sessionId) =
      some ((lookupL st.messageHistory ("session:" ++ d.sessionId)).getD []
        ++ [mkChatMessage (uuids st.uuidCtr) c d now]) := by
  simp [stepChat, h, lookupL_ensureAppendMsg]

/-- C5 witness: the amended append-order theorem instantiated at the
empty state and the concrete chat payload. -/
theorem c5_append_order_witness :
    lookupL (stepChat uuidsN 5 connA chat1 state0).1.messageHistory
      ("session:" ++ chat1.sessionId) =
      some ((lookupL state0.messageHistory ("session:" ++ chat1.sessionId)).getD []
        ++ [mkChatMessage (uuidsN state0.uuidCtr) connA chat1 5]) :=
  c5_append_order_amended uuidsN 5 connA chat1 state0 (by decide)

/-- C6: a chat_message payload failing the schema leaves the server
state (history included) unchanged and produces exactly one emission,
a validation error to the sending socket alone — no append, no
broadcast, no delivery to any other connection. -/
theorem c6_validation_isolation (uuids : Nat → String) (now : Nat) (c : Conn)
    (d : ChatInput) (st : ServerState) (h : validateChat d = false) :
    stepChat uuids now c d st =
      (st, [(c.sockId, WireEvent.errorEv "Invalid message format")]) := by
  simp [stepChat, h]

/-- C6 witness: the validation-isolation theorem instantiated at an
empty-content payload, which the schema rejects. -/
theorem c6_validation_isolation_witness :
    stepChat uuidsN 0 connA ⟨"", sidC, none⟩ state0 =
      (state0, [(connA.sockId, WireEvent.errorEv "Invalid message format")]) :=
  c6_validation_isolation uuidsN 0 connA ⟨"", sidC, none⟩ state0 (by decide)

/-- C7: a connection presenting a credential that is truthy but fails
JWT verification is rejected with `Invalid authentication token` under
every NODE_ENV value, the permissive development mode included. -/
theorem c7_invalid_credential_rejected (env : String)
    (verify : String → Option JwtClaims) (authToken headerAuth : Option String)
    (u s : String) (h1 : jsOrStr authToken headerAuth = some s) (h2 : s ≠ "")
    (h3 : verify (stripBearer s) = none) :
    authenticate env verify authToken headerAuth u =
      .reject "Invalid authentication token" := by
  unfold authenticate
  rw [h1]
  simp [h2, h3]

/-- C7 witness: the rejection theorem instantiated in development mode
with a bearer token that no verifier accepts. -/
theorem c7_invalid_credential_rejected_witness :
    authenticate "development" (fun _ : String => (none : Option JwtClaims))
      (some "Bearer xyz") none "u1" = .reject "Invalid authentication token" :=
  c7_invalid_credential_rejected "development" _ (some "Bearer xyz") none "u1"
    "Bearer xyz" (by decide) (by decide) rfl

theorem cleanupUser_spec (m : List (String × List String)) (cu rid u : String)
    (hk : (m.map Prod.fst).Nodup)
    (hv : ∀ p ∈ m, (p.2 : List String).Nodup ∧ p.2 ≠ []) :
    cu ∉ (lookupL (cleanupUser cu m) rid).getD [] ∧
    (u ≠ cu → (u ∈ (lookupL (cleanupUser cu m) rid).getD [] ↔
      u ∈ (lookupL m rid).getD [])) ∧
    (∀ l, lookupL (cleanupUser cu m) rid = some l → l ≠ []) := by
  rw [lookupL_cleanupUser cu m rid hk]
  cases h : lookupL m rid with
  | none => simp
  | some l =>
    have hl := hv (rid, l) (lookupL_mem h)
    rw [Option.some_bind]
    by_cases hcu : cu ∈ l
    · by_cases he : l.erase cu = []
      · rw [if_pos hcu, if_pos he]
        refine ⟨by simp, ?_, by simp⟩
        intro hu
        simp only [Option.getD_none, List.not_mem_nil, false_iff]
        intro hmem
        have hmem' : u ∈ l.erase cu :=
          (List.Nodup.mem_erase_iff hl.1).mpr ⟨hu, hmem⟩
        rw [he] at hmem'
        exact absurd hmem' (List.not_mem_nil u)
      · rw [if_pos hcu, if_neg he]
        refine ⟨?_, ?_, ?_⟩
        · simp only [Option.getD_some]
          intro hmem
          exact absurd ((List.Nodup.mem_erase_iff hl.1).mp hmem).1 (by simp)
        · intro hu
          simp only [Option.getD_some]
          exact List.mem_erase_of_ne hu
        · intro l' hl'
          injection hl' with hl''
          rw [← hl'']
          exact he
    · rw [if_neg hcu]
      refine ⟨by simpa using hcu, fun _ => Iff.rfl, ?_⟩
      intro l' hl'
      injection hl' with hl''
      rw [← hl'']
      exact hl.2

/-- C8: joining a session with a non-empty id emits exactly two
events, both privately to the joining socket: the history replay
carrying the most recent 50 entries of the room history in their
original oldest-first order (the whole history when it is shorter),
then the join ack; the replayed list is the length-min(50,len) suffix
of the history. -/
theorem c8_bounded_replay (st : ServerState) (c : Conn) (sid : String)
    (h : sid ≠ "") :
    (stepJoinSession c sid st).2 =
      [(c.sockId, WireEvent.sessionHistory sid
          (lastN 50 ((lookupL st.messageHistory ("session:" ++ sid)).getD []))),
       (c.sockId, WireEvent.sessionJoined sid)] ∧
    (lastN 50 ((lookupL st.messageHistory ("session:" ++ sid)).getD [])).length =
      min 50 ((lookupL st.messageHistory ("session:" ++ sid)).getD []).length ∧
    ((lookupL st.messageHistory ("session:" ++ sid)).getD []).take
        (((lookupL st.messageHistory ("session:" ++ sid)).getD []).length - 50)
      ++ lastN 50 ((lookupL st.messageHistory ("session:" ++ sid)).getD []) =
      (lookupL st.messageHistory ("session:" ++ sid)).getD [] :=
  ⟨stepJoinSession_emissions c sid st h, lastN_length 50 _, take_append_lastN 50 _⟩

/-- C8 witness: the bounded-replay theorem instantiated at the
two-message state reached by the concrete scenario. -/
theorem c8_bounded_replay_witness :
    (stepJoinSession ⟨3, "dave"⟩ sidC (run uuidsN state0 scenario1).1).2 =
      [((3 : Nat), WireEvent.sessionHistory sidC
          (lastN 50 ((lookupL (run uuidsN state0 scenario1).1.messageHistory
            ("session:" ++ sidC)).getD []))),
       ((3 : Nat), WireEvent.sessionJoined sidC)] :=
  (c8_bounded_replay (run uuidsN state0 scenario1).1 ⟨3, "dave"⟩ sidC (by decide)).1

/-- C9: joining a session twice with the same connection and identity
is idempotent on the whole server state — in particular the room's
membership set after the second join equals the set after the first,
and the registries are otherwise untouched. -/
theorem c9_join_idempotent (st : ServerState) (c : Conn) (sid : String) :
    (stepJoinSession c sid (stepJoinSession c sid st).1).1 =
      (stepJoinSession c sid st).1 := by
  by_cases h : sid = ""
  · simp [stepJoinSession, h]
  · simp [stepJoinSession, h, adjoinRoom_idem, ensureAdd_idem]

/-- C10: on one connection's disconnect its identity is removed from
the member set of every session room and every project room, any room
whose member set becomes empty is deleted from its registry, and other
identities' memberships are untouched — the cleanup is keyed by the
identity alone, irrespective of any sibling connections of the same
identity, which is exactly what the handler does. -/
theorem c10_disconnect_cleanup (st : ServerState) (c : Conn) (rid u : String)
    (hks : (st.activeSessions.map Prod.fst).Nodup)
    (hvs : ∀ p ∈ st.activeSessions, (p.2 : List String).Nodup ∧ p.2 ≠ [])
    (hkp : (st.activeProjects.map Prod.fst).Nodup)
    (hvp : ∀ p ∈ st.activeProjects, (p.2 : List String).Nodup ∧ p.2 ≠ []) :
    c.userId ∉ (lookupL (stepDisconnect c st).1.activeSessions rid).getD [] ∧
    c.userId ∉ (lookupL (stepDisconnect c st).1.activeProjects rid).getD [] ∧
    (u ≠ c.userId →
      ((u ∈ (lookupL (stepDisconnect c st).1.activeSessions rid).getD [] ↔
        u ∈ (lookupL st.activeSessions rid).getD []) ∧
       (u ∈ (lookupL (stepDisconnect c st).1.activeProjects rid).getD [] ↔
        u ∈ (lookupL st.activeProjects rid).getD []))) ∧
    (∀ l, lookupL (stepDisconnect c st).1.activeSessions rid = some l → l ≠ []) ∧
    (∀ l, lookupL (stepDisconnect c st).1.activeProjects rid = some l → l ≠ []) := by
  have hs := cleanupUser_spec st.activeSessions c.userId rid u hks hvs
  have hp := cleanupUser_spec st.activeProjects c.userId rid u hkp hvp
  exact ⟨hs.1, hp.1, fun hu => ⟨hs.2.1 hu, hp.2.1 hu⟩, hs.2.2, hp.2.2⟩

/-- The state used to witness the disconnect cleanup: two connections
of the same identity "bob" and one of "alice" share a session room,
and one bob connection alone populates a project room. -/
def stW10 : ServerState :=
  (run uuidsN state0
    [(0, .connect ⟨0, "bob"⟩), (0, .connect ⟨1, "bob"⟩),
     (0, .joinSession ⟨0, "bob"⟩ "s1"), (0, .joinSession ⟨1, "bob"⟩ "s1"),
     (0, .joinSession ⟨2, "alice"⟩ "s1"), (0, .joinProject ⟨0, "bob"⟩ "p1")]).1

/-- C10 witness: after one of bob's two connections disconnects, bob
is no longer a member of the session room even though the sibling
connection is still open, while alice's membership is preserved. -/
theorem c10_disconnect_cleanup_witness :
    "bob" ∉ (lookupL (stepDisconnect ⟨0, "bob"⟩ stW10).1.activeSessions "s1").getD [] ∧
    ("alice" ∈ (lookupL (stepDisconnect ⟨0, "bob"⟩ stW10).1.activeSessions "s1").getD [] ↔
      "alice" ∈ (lookupL stW10.activeSessions "s1").getD []) :=
  ⟨(c10_disconnect_cleanup stW10 ⟨0, "bob"⟩ "s1" "alice"
      (by decide) (by decide) (by decide) (by decide)).1,
   ((c10_disconnect_cleanup stW10 ⟨0, "bob"⟩ "s1" "alice"
      (by decide) (by decide) (by decide) (by decide)).2.2.1 (by decide)).1⟩
